import Mathlib

/-!
Shallow embedding of the household-appliance scenario CLI
(src/unnamed/part_000, src/unnamed/part_001, src/utils.ts).

Interactive console prompts are modelled as explicit input parameters:
each `prompt(...)` call becomes an `Option String` argument (`none` is the
null return of a cancelled prompt, the empty string is an empty submission;
both are falsy in the source's `if (!input)` checks).  `Math.random()` is
modelled as a stream `Nat → Rat` of values consumed one per call, and
`new Date()` as explicitly supplied `Date` values.  JavaScript `Date`
objects are modelled by their millisecond timestamp; an invalid date
(`getTime()` is `NaN`) is modelled by `Option Date` being `none` at the
point where the source checks `Number.isNaN`.
-/

/-- JSON values, the result of `JSON.parse` on the catalog file text.
Objects are ordered key/value lists (JSON.parse yields unique keys). -/
inductive Json where
  | null : Json
  | bool (b : Bool) : Json
  | num (q : Rat) : Json
  | str (s : String) : Json
  | arr (elems : List Json) : Json
  | obj (fields : List (String × Json)) : Json

/-- `enum UsageMode { ALWAYS_ON = "ALWAYS_ON", ON_DEMAND = "ON_DEMAND" }`. -/
inductive UsageMode where
  | ALWAYS_ON : UsageMode
  | ON_DEMAND : UsageMode
deriving DecidableEq

/-- `enum Region { US, EU, ASIA, NOT_SPECIFIED }`. -/
inductive Region where
  | US : Region
  | EU : Region
  | ASIA : Region
  | NOT_SPECIFIED : Region
deriving DecidableEq

/-- A JavaScript `Date`, modelled by its millisecond timestamp. -/
structure Date where
  ms : Int
deriving DecidableEq

/-- `class TimeWindow { _start: Date; _end: Date }`. -/
structure TimeWindow where
  start : Date
  stop : Date
deriving DecidableEq

/-- `class Appliance`: name, powerConsumption, embodiedEmissions, usageMode,
parameters (a `Map<string, object>`, modelled as an insertion-ordered
association list). -/
structure Appliance where
  name : String
  powerConsumption : Rat
  embodiedEmissions : Rat
  usageMode : UsageMode
  parameters : List (String × Json)

/-- `class Household { _region; _timeWindow; _appliances }`.  The
`appliances` getter returns `Array.from(this._appliances)`, a fresh array
with the same elements, so reading the field models the getter exactly. -/
structure Household where
  region : Region
  timeWindow : TimeWindow
  appliances : List Appliance

/-- `class Scenario { _name: string; _household: Household }`. -/
structure Scenario where
  name : String
  household : Household

/-- `class CO2Contribution { _appliance: Appliance; _value: number }`. -/
structure CO2Contribution where
  appliance : Appliance
  value : Rat

/-- `Math.round` on a non-negative real: `⌊x + 1/2⌋` (round half up). -/
def jsRound (q : Rat) : Int := ⌊q + 1 / 2⌋

/-- Helper for `Scenario.evaluate`: maps the appliance list while consuming
one `Math.random()` value (from the stream `rand`, starting at call index
`i`) per appliance, exactly as `.map((a) => new CO2Contribution(a,
Math.round(Math.random()) * 100))` does. -/
def evalAux (rand : Nat → Rat) : Nat → List Appliance → List CO2Contribution
  | _, [] => []
  | i, a :: rest =>
      ⟨a, (jsRound (rand i) : Rat) * 100⟩ :: evalAux rand (i + 1) rest

/-- `Scenario.evaluate()`: one CO2Contribution per appliance of the
household, value `Math.round(Math.random()) * 100`. -/
def Scenario.evaluate (rand : Nat → Rat) (s : Scenario) : List CO2Contribution :=
  evalAux rand 0 s.household.appliances

/-- The two mutable fields of `class App`: `_possibleAppliances` (set once
by the constructor) and `_scenarios` (starts `[]`). -/
structure AppState where
  possibleAppliances : List Appliance
  scenarios : List Scenario

/-- JavaScript falsiness of a `prompt` result: `null` and `""` are falsy. -/
def falsy : Option String → Bool
  | none => true
  | some s => s.isEmpty

/-- `App.createScenario()`: appends `new Scenario(` scenario-(length+1) `,
new Household(Region.ASIA, new TimeWindow(new Date(), new Date()), []))`.
`d1`, `d2` are the values of the two `new Date()` calls. -/
def App.createScenario (d1 d2 : Date) (st : AppState) : AppState :=
  let name := "scenario-" ++ toString (st.scenarios.length + 1)
  let household : Household := ⟨Region.ASIA, ⟨d1, d2⟩, []⟩
  { st with scenarios := st.scenarios ++ [⟨name, household⟩] }

/-- `App.deleteScenario()`.  Returns the controller state paired with the
method's return value (the filtered list, or nothing on an abort path).
The method body never assigns `this._scenarios`, and `run()` invokes it as
`() => this.deleteScenario()` discarding the return value, so the state
component is the unchanged input state. -/
def App.deleteScenario (st : AppState) (input : Option String) :
    AppState × Option (List Scenario) :=
  if st.scenarios.isEmpty then (st, none)
  else if falsy input then (st, none)
  else
    match st.scenarios.find? (fun s => s.name == input.getD "") with
    | none => (st, none)
    | some scenario =>
        (st, some (st.scenarios.filter (fun s => s.name != scenario.name)))

/-- `App.showScenarioReport()`: returns the state paired with the printed
report (`scenario.evaluate()`) when one is produced. -/
def App.showScenarioReport (rand : Nat → Rat) (st : AppState)
    (input : Option String) : AppState × Option (List CO2Contribution) :=
  if st.scenarios.isEmpty then (st, none)
  else if falsy input then (st, none)
  else
    match st.scenarios.find? (fun s => s.name == input.getD "") with
    | none => (st, none)
    | some scenario => (st, some (Scenario.evaluate rand scenario))

/-- Inner `getScenarioName(scenario)` of `App.editScenario`: prompt with
the current name as default; a falsy answer keeps `scenario.name`. -/
def getScenarioName (scenario : Scenario) (input : Option String) : String :=
  match input with
  | none => scenario.name
  | some s => if s.isEmpty then scenario.name else s

/-- Inner `getRegion()` of `App.editScenario`: "1"→US, "2"→EU, "3"→ASIA,
anything else (including falsy input) → NOT_SPECIFIED. -/
def getRegion (input : Option String) : Region :=
  match input with
  | none => Region.NOT_SPECIFIED
  | some s =>
      if s.isEmpty then Region.NOT_SPECIFIED
      else if s = "1" then Region.US
      else if s = "2" then Region.EU
      else if s = "3" then Region.ASIA
      else Region.NOT_SPECIFIED

/-- Inner `getTimeWindow()` of `App.editScenario`: four prompts (start
date, start time, end date, end time); any falsy answer aborts.  `parse`
models the host's `new Date(string)` on the combined "date·T·time" string,
`none` standing for an invalid date (`getTime()` is `NaN`); if either
parse is invalid the function logs and aborts. -/
def getTimeWindow (parse : String → Option Date)
    (sd stime ed etime : Option String) : Option TimeWindow :=
  if falsy sd then none
  else if falsy stime then none
  else if falsy ed then none
  else if falsy etime then none
  else
    match parse (sd.getD "" ++ "T" ++ stime.getD ""),
        parse (ed.getD "" ++ "T" ++ etime.getD "") with
    | some startDate, some endDate => some ⟨startDate, endDate⟩
    | _, _ => none

/-- JavaScript `String.prototype.trim` (used by zod's `.trim()`): strip
leading and trailing whitespace.  Modelled over the character list with
the ASCII whitespace class, which covers every catalog the program
reads. -/
def jsTrim (s : String) : String :=
  ⟨((s.data.dropWhile Char.isWhitespace).reverse.dropWhile
      Char.isWhitespace).reverse⟩

/-- ASCII lowering of one character, as `String.prototype.toLowerCase`
acts on the command vocabulary ("done", command names). -/
def jsCharToLower (c : Char) : Char :=
  if 'A' ≤ c ∧ c ≤ 'Z' then Char.ofNat (c.toNat + 32) else c

/-- JavaScript `String.prototype.toLowerCase` (ASCII range). -/
def jsToLower (s : String) : String := ⟨s.data.map jsCharToLower⟩

/-- Digits of a decimal numeral; `none` when there is no leading digit
(`parseInt` yields `NaN`). -/
def digitsToNat : List Char → Option Nat
  | [] => none
  | ds => some (ds.foldl (fun acc c => acc * 10 + (c.toNat - 48)) 0)

/-- JavaScript `parseInt(s)` for decimal numerals: skip whitespace, read an
optional sign and then the longest prefix of digits; `none` models `NaN`.
(`parseInt` trims only leading whitespace; its hexadecimal `0x` prefix
form is not modelled — the appliance-number prompt feeds it decimal
input.) -/
def parseIntJS (s : String) : Option Int :=
  match s.data.dropWhile Char.isWhitespace with
  | '-' :: rest =>
      (digitsToNat (rest.takeWhile (fun c => c.isDigit))).map (fun n => -(n : Int))
  | '+' :: rest =>
      (digitsToNat (rest.takeWhile (fun c => c.isDigit))).map (fun n => (n : Int))
  | cs => (digitsToNat (cs.takeWhile (fun c => c.isDigit))).map (fun n => (n : Int))

/-- Inner `getAppliances(possibleAppliances)` of `App.editScenario`: loop
reading one prompt answer per iteration; falsy or "done" (case-folded)
terminates; an unparseable or out-of-range number is rejected and the loop
continues; a valid 1-based index pushes `possibleAppliances[index-1]`.
The input list supplies the successive prompt answers. -/
def getAppliances (possible : List Appliance) :
    List (Option String) → List Appliance
  | [] => []
  | input :: rest =>
      if falsy input || jsToLower (input.getD "") == "done" then []
      else
        match parseIntJS (input.getD "") with
        | none => getAppliances possible rest
        | some n =>
            let idx := n - 1
            if idx < 0 ∨ (possible.length : Int) ≤ idx then
              getAppliances possible rest
            else
              match possible.get? idx.toNat with
              | some a => a :: getAppliances possible rest
              | none => getAppliances possible rest

/-- The prompt answers consumed by one run of `App.editScenario`, in the
order the source requests them. -/
structure EditInputs where
  targetName : Option String
  newName : Option String
  startDate : Option String
  startTime : Option String
  endDate : Option String
  endTime : Option String
  regionInput : Option String
  applianceInputs : List (Option String)

/-- `App.editScenario()`: abort paths return the state unchanged; the
success path appends `new Scenario(name, new Household(region, timeWindow,
appliances))` built from the collected answers.  The order of steps is the
source's: empty-list check, target-name prompt, lookup, name prompt, time
window, region, empty-catalog check, appliance selection, push. -/
def App.editScenario (parse : String → Option Date) (st : AppState)
    (inp : EditInputs) : AppState :=
  if st.scenarios.isEmpty then st
  else if falsy inp.targetName then st
  else
    match st.scenarios.find? (fun s => s.name == inp.targetName.getD "") with
    | none => st
    | some originalScenario =>
        let name := getScenarioName originalScenario inp.newName
        match getTimeWindow parse inp.startDate inp.startTime inp.endDate
            inp.endTime with
        | none => st
        | some timeWindow =>
            let region := getRegion inp.regionInput
            if st.possibleAppliances.isEmpty then st
            else
              let appliances := getAppliances st.possibleAppliances
                inp.applianceInputs
              { st with scenarios := st.scenarios ++
                  [⟨name, ⟨region, timeWindow, appliances⟩⟩] }

/-- The result record of `tryCatch` (src/utils.ts): `Success<T>` is
`{ data: T; error?: never }` and `Failure<E>` is `{ data?: never;
error: E }`; both fields are modelled as options so that "both present" and
"neither present" are expressible states the wrapper must avoid. -/
structure JSResult (T : Type) (E : Type) where
  data : Option T
  error : Option E

/-- `tryCatch(promise)`: the settled promise is `Except.ok` on fulfilment
and `Except.error` on rejection; the wrapper awaits it inside `try` and
returns `{ data }` on success or `{ error }` on a caught failure.  It is a
total function: it never throws. -/
def Utils.tryCatch {T E : Type} (promise : Except E T) : JSResult T E :=
  match promise with
  | Except.ok d => { data := some d, error := none }
  | Except.error e => { data := none, error := some e }

/-- A JavaScript `Error` value as the loader handles it: a message and the
own `cause` property (`none` models an absent property). -/
structure JSError where
  message : String
  cause : Option JSError

/-- `new Error(message, options)` per ES2022 `InstallErrorCause`: the new
error's `cause` is installed from the `cause` property of the options
object.  The source passes `fileResult.error` (an Error) as `options`, so
the installed cause is that error's own `cause` property — not the error
itself. -/
def mkErrorWithOptions (msg : String) (options : JSError) : JSError :=
  { message := msg, cause := options.cause }

/-- A validated appliance record: the output type of a successful
`ApplianceSchema` parse (zod's `z.infer`).  `name` is the trimmed string
(zod's `.trim()` transforms), `parameters` is `none` when the optional
field was absent. -/
structure ApplianceRecord where
  name : String
  powerConsumption : Rat
  embodiedEmissions : Rat
  usageMode : UsageMode
  parameters : Option (List (String × Json))

/-- Property lookup on a parsed JSON object. -/
def jsonField (fields : List (String × Json)) (key : String) : Option Json :=
  (fields.find? (fun p => p.1 == key)).map (fun p => p.2)

/-- The string values of the `UsageMode` enum (its TS members are
initialised to these strings). -/
def UsageMode.toStr : UsageMode → String
  | UsageMode.ALWAYS_ON => "ALWAYS_ON"
  | UsageMode.ON_DEMAND => "ON_DEMAND"

/-- `z.nativeEnum(UsageMode)`: accepts exactly the enum's string values. -/
def parseUsageMode (s : String) : Option UsageMode :=
  if s = "ALWAYS_ON" then some UsageMode.ALWAYS_ON
  else if s = "ON_DEMAND" then some UsageMode.ON_DEMAND
  else none

/-- `ApplianceSchema.safeParse` on one entry: a `z.object` requiring
`name: z.string().trim().min(1)`, `powerConsumption: z.number().min(0)`,
`embodiedEmissions: z.number().min(0)`, `usageMode: z.nativeEnum(UsageMode)`
and optional `parameters: z.record(z.any())`.  Zod aggregates every
violation into one message; this embedding reports the first, which fails
exactly when zod fails. -/
def validateAppliance (j : Json) : Except String ApplianceRecord :=
  match j with
  | Json.obj fields =>
      match jsonField fields "name" with
      | some (Json.str s) =>
          if 1 ≤ (jsTrim s).length then
            match jsonField fields "powerConsumption" with
            | some (Json.num p) =>
                if 0 ≤ p then
                  match jsonField fields "embodiedEmissions" with
                  | some (Json.num em) =>
                      if 0 ≤ em then
                        match jsonField fields "usageMode" with
                        | some (Json.str m) =>
                            match parseUsageMode m with
                            | some mode =>
                                match jsonField fields "parameters" with
                                | none =>
                                    Except.ok ⟨jsTrim s, p, em, mode, none⟩
                                | some (Json.obj ps) =>
                                    Except.ok ⟨jsTrim s, p, em, mode, some ps⟩
                                | some _ =>
                                    Except.error "parameters: Expected record"
                            | none => Except.error "usageMode: Invalid enum value"
                        | _ => Except.error "usageMode: Required string"
                      else Except.error "embodiedEmissions: Number must be ≥ 0"
                  | _ => Except.error "embodiedEmissions: Required number"
                else Except.error "powerConsumption: Number must be ≥ 0"
            | _ => Except.error "powerConsumption: Required number"
          else Except.error "name: String must contain at least 1 character"
      | _ => Except.error "name: Required string"
  | _ => Except.error "Expected object"

/-- Element-wise validation of the array (zod validates each element and
fails when any element fails). -/
def validateList : List Json → Except String (List ApplianceRecord)
  | [] => Except.ok []
  | e :: rest =>
      match validateAppliance e, validateList rest with
      | Except.ok r, Except.ok rs => Except.ok (r :: rs)
      | Except.error m, _ => Except.error m
      | _, Except.error m => Except.error m

/-- `AppliancesSchema.safeParse`: `z.array(ApplianceSchema)`. -/
def safeParseAppliances (j : Json) : Except String (List ApplianceRecord) :=
  match j with
  | Json.arr elems => validateList elems
  | _ => Except.error "Expected array"

/-- The three distinct throw sites of `loadAppliancesFromFile` (the error
taxonomy of the spec): the file-read throw carries the `JSError` the code
constructs; a `JSON.parse` failure propagates the parser's own error;
schema failure carries the zod message. -/
inductive LoadError where
  | fileRead (thrown : JSError) : LoadError
  | jsonParse (thrown : JSError) : LoadError
  | schemaValidation (message : String) : LoadError

/-- The `.map` step of the loader: copies each validated field into the
`Appliance` constructor, building `parametersMap` by iterating the own
keys of `parameters` in order (the empty map when the field was absent). -/
def ApplianceRecord.toAppliance (r : ApplianceRecord) : Appliance :=
  ⟨r.name, r.powerConsumption, r.embodiedEmissions, r.usageMode,
    r.parameters.getD []⟩

/-- `ApplianceLoader.loadAppliancesFromFile`.  `fileResult` is the
`tryCatch(Bun.file(filePath).text())` outcome; `parseJson` models the
host's `JSON.parse` on the file text (`Except.error` is the thrown
SyntaxError).  On a read error the code throws
`new Error("Error reading file ...", fileResult.error)` — the error passed
as the ES2022 options bag, see `mkErrorWithOptions`. -/
def ApplianceLoader.loadAppliancesFromFile
    (parseJson : String → Except JSError Json)
    (fileResult : JSResult String JSError) :
    Except LoadError (List Appliance) :=
  match fileResult.error with
  | some e =>
      Except.error (LoadError.fileRead
        (mkErrorWithOptions "Error reading file:" e))
  | none =>
      match parseJson (fileResult.data.getD "") with
      | Except.error e => Except.error (LoadError.jsonParse e)
      | Except.ok jsonData =>
          match safeParseAppliances jsonData with
          | Except.error m =>
              Except.error (LoadError.schemaValidation
                ("Zod validation error:" ++ m))
          | Except.ok records =>
              Except.ok (records.map ApplianceRecord.toAppliance)

/-- The JSON serialisation of an appliance record, the shape a catalog
entry has when it is a valid record (§6 of the spec): the four required
fields, plus `parameters` exactly when present. -/
def ApplianceRecord.toJson (r : ApplianceRecord) : Json :=
  Json.obj ([("name", Json.str r.name),
    ("powerConsumption", Json.num r.powerConsumption),
    ("embodiedEmissions", Json.num r.embodiedEmissions),
    ("usageMode", Json.str r.usageMode.toStr)] ++
    (match r.parameters with
     | none => []
     | some ps => [("parameters", Json.obj ps)]))

/-- A valid record in the sense of the spec and of claim C2: trimmed
non-empty name and non-negative numeric fields (`usageMode` is already an
enum member by type, `parameters` is an arbitrary optional object). -/
def ValidRecord (r : ApplianceRecord) : Prop :=
  jsTrim r.name = r.name ∧ r.name ≠ "" ∧
    0 ≤ r.powerConsumption ∧ 0 ≤ r.embodiedEmissions

/-- A catalog entry exhibiting one of the three violations of claim C3:
a negative `powerConsumption`, a negative `embodiedEmissions`, or a
`usageMode` string outside the enum. -/
def BadEntry (j : Json) : Prop :=
  ∃ fields, j = Json.obj fields ∧
    ((∃ p : Rat, jsonField fields "powerConsumption" = some (Json.num p) ∧
        p < 0) ∨
     (∃ q : Rat, jsonField fields "embodiedEmissions" = some (Json.num q) ∧
        q < 0) ∨
     (∃ m : String, jsonField fields "usageMode" = some (Json.str m) ∧
        m ≠ "ALWAYS_ON" ∧ m ≠ "ON_DEMAND"))

/-- `create_scenario` issued `n` times in a row with no other command
interleaved; the 0-based `i`-th invocation observes `dates i` as its two
`new Date()` results. -/
def iterCreate (dates : Nat → Date × Date) (st : AppState) : Nat → AppState
  | 0 => st
  | n + 1 => App.createScenario (dates n).1 (dates n).2 (iterCreate dates st n)

/-- A fixed timestamp used by the concrete witnesses. -/
def date0 : Date := ⟨0⟩

/-- A concrete household with no appliances. -/
def emptyHousehold : Household := ⟨Region.ASIA, ⟨date0, date0⟩, []⟩

/-- A concrete catalog appliance. -/
def fridge : Appliance := ⟨"Fridge", 150, 50, UsageMode.ALWAYS_ON, []⟩

/-- A controller state holding one scenario named "scenario-1" (as left by
one `create_scenario`). -/
def oneScenarioState : AppState := ⟨[], [⟨"scenario-1", emptyHousehold⟩]⟩

/-- The read error of a missing file: a plain Error with no own `cause`
property, as `Bun.file(path).text()` rejects with. -/
def enoentError : JSError := ⟨"ENOENT: no such file or directory", none⟩

/-- A concrete valid catalog record with `parameters` absent. -/
def fridgeRecord : ApplianceRecord :=
  ⟨"Fridge", 150, 50, UsageMode.ALWAYS_ON, none⟩

/-- A concrete valid catalog record with a `parameters` object present. -/
def heaterRecord : ApplianceRecord :=
  ⟨"Heater", 2000, 120, UsageMode.ON_DEMAND,
    some [("room", Json.str "kitchen")]⟩

/-- A catalog entry whose `powerConsumption` is negative (otherwise
well-formed). -/
def badPowerEntry : Json :=
  Json.obj [("name", Json.str "Broken"),
    ("powerConsumption", Json.num (-5)),
    ("embodiedEmissions", Json.num 10),
    ("usageMode", Json.str "ALWAYS_ON")]

lemma one_le_length_of_ne_empty (s : String) (h : s ≠ "") : 1 ≤ s.length := by
  cases s with
  | mk data =>
      cases data with
      | nil => exact absurd rfl h
      | cons c cs => simp [String.length]

lemma scenarios_ne_nil_of_find (st : AppState) (p : Scenario → Bool)
    (orig : Scenario) (h : st.scenarios.find? p = some orig) :
    st.scenarios.isEmpty = false := by
  cases hs : st.scenarios with
  | nil => rw [hs] at h; simp [List.find?] at h
  | cons a l => rfl

/-- C7: `tryCatch` settles every wrapped operation into exactly one of
`{ data }` (success, carrying the fulfilment value) or `{ error }`
(failure, carrying the rejection value): exactly one of the two fields is
present, and being a total function it never throws. -/
theorem C7_tryCatch_exactly_one (T E : Type) (promise : Except E T) :
    ((∃ d, promise = Except.ok d ∧
        Utils.tryCatch promise = { data := some d, error := none }) ∨
      (∃ e, promise = Except.error e ∧
        Utils.tryCatch promise = { data := none, error := some e }))
    ∧ ((Utils.tryCatch promise).data.isSome ↔ ¬(Utils.tryCatch promise).error.isSome) := by
  cases promise with
  | ok d => exact ⟨Or.inl ⟨d, rfl, rfl⟩, by simp [Utils.tryCatch]⟩
  | error e => exact ⟨Or.inr ⟨e, rfl, rfl⟩, by simp [Utils.tryCatch]⟩

/-- C9: with an empty scenario list, `edit_scenario`, `delete_scenario`
and `show_scenario_report` all return right after the empty-list message:
the state (catalog and scenario list) is unchanged and the result does not
depend on any prompt answer (none is ever consumed). -/
theorem C9_empty_list_short_circuit (parse : String → Option Date)
    (rand : Nat → Rat) (st : AppState) (h : st.scenarios = [])
    (einp : EditInputs) (dinp sinp : Option String) :
    App.editScenario parse st einp = st
    ∧ App.deleteScenario st dinp = (st, none)
    ∧ App.showScenarioReport rand st sinp = (st, none) := by
  refine ⟨?_, ?_, ?_⟩ <;>
    simp [App.editScenario, App.deleteScenario, App.showScenarioReport, h]

/-- Witness for C9 at a concrete empty controller. -/
theorem C9_witness :
    App.editScenario (fun _ => none) ⟨[fridge], []⟩
        ⟨some "scenario-1", none, none, none, none, none, none, []⟩
      = ⟨[fridge], []⟩
    ∧ App.deleteScenario ⟨[fridge], []⟩ (some "scenario-1")
      = (⟨[fridge], []⟩, none)
    ∧ App.showScenarioReport (fun _ => 0) ⟨[fridge], []⟩ (some "scenario-1")
      = (⟨[fridge], []⟩, none) :=
  C9_empty_list_short_circuit (fun _ => none) (fun _ => 0) ⟨[fridge], []⟩ rfl
    ⟨some "scenario-1", none, none, none, none, none, none, []⟩
    (some "scenario-1") (some "scenario-1")

/-- C10: with an empty appliance catalog, `edit_scenario` aborts after the
catalog listing and appends nothing, even when the target scenario is
found and the name, time-window and region steps all succeed: the state is
returned unchanged. -/
theorem C10_empty_catalog_aborts (parse : String → Option Date)
    (st : AppState) (inp : EditInputs) (orig : Scenario) (tw : TimeWindow)
    (hcat : st.possibleAppliances = [])
    (hfind : st.scenarios.find? (fun s => s.name == inp.targetName.getD "")
      = some orig)
    (htw : getTimeWindow parse inp.startDate inp.startTime inp.endDate
      inp.endTime = some tw) :
    App.editScenario parse st inp = st := by
  have hs := scenarios_ne_nil_of_find st _ orig hfind
  simp [App.editScenario, hs, hfind, htw, hcat]

/-- Witness for C10: one scenario, empty catalog, all prompts answered. -/
theorem C10_witness :
    App.editScenario (fun _ => some date0) oneScenarioState
        ⟨some "scenario-1", some "better", some "2024-01-01", some "00:00",
          some "2024-01-02", some "23:59", some "1", [some "done"]⟩
      = oneScenarioState :=
  C10_empty_catalog_aborts (fun _ => some date0) oneScenarioState
    ⟨some "scenario-1", some "better", some "2024-01-01", some "00:00",
      some "2024-01-02", some "23:59", some "1", [some "done"]⟩
    ⟨"scenario-1", emptyHousehold⟩ ⟨date0, date0⟩ rfl rfl rfl

/-- C1 (code evaluation): `delete_scenario` on a controller retaining one
scenario "scenario-1", given the exactly-matching input, leaves the
retained scenario list unchanged — "scenario-1" is still observed by a
subsequent `list_scenarios` — even though the computed (and discarded)
return value is the filtered list with the scenario removed. -/
theorem C1_delete_not_persisted :
    (App.deleteScenario oneScenarioState (some "scenario-1")).1
      = oneScenarioState
    ∧ (App.deleteScenario oneScenarioState (some "scenario-1")).2 = some []
    ∧ ((App.deleteScenario oneScenarioState (some "scenario-1")).1.scenarios.any
        (fun s => s.name == "scenario-1")) = true :=
  ⟨rfl, rfl, rfl⟩

/-- C8 (code evaluation): when the file read fails with a plain error that
has no own `cause` property (the ordinary ENOENT case), the FileReadError
thrown by `loadAppliancesFromFile` carries **no** cause at all — the
underlying read error is not recoverable from it — because the source
passes `fileResult.error` as the ES2022 options bag instead of
`{ cause: fileResult.error }`. -/
theorem C8_fileRead_cause_dropped :
    (∀ parseJson : String → Except JSError Json,
      ApplianceLoader.loadAppliancesFromFile parseJson
          { data := none, error := some enoentError }
        = Except.error (LoadError.fileRead ⟨"Error reading file:", none⟩))
    ∧ (mkErrorWithOptions "Error reading file:" enoentError).cause
        ≠ some enoentError :=
  ⟨fun _ => rfl, by simp [mkErrorWithOptions, enoentError]⟩

lemma iterCreate_scenarios (dates : Nat → Date × Date) (cat : List Appliance)
    (n : Nat) :
    (iterCreate dates ⟨cat, []⟩ n).scenarios
      = (List.range n).map (fun i =>
          ⟨"scenario-" ++ toString (i + 1),
            ⟨Region.ASIA, ⟨(dates i).1, (dates i).2⟩, []⟩⟩) := by
  induction n with
  | zero => rfl
  | succ n ih =>
      simp [iterCreate, App.createScenario, ih, List.range_succ]

/-- C4: starting from an empty scenario list, N consecutive
`create_scenario` commands leave exactly N scenarios, the (0-based) i-th
named "scenario-(i+1)", each with region ASIA and no appliances. -/
theorem C4_createScenario_names (dates : Nat → Date × Date)
    (cat : List Appliance) (N : Nat) (hN : 1 ≤ N) :
    (iterCreate dates ⟨cat, []⟩ N).scenarios.length = N
    ∧ ∀ i, i < N →
        (iterCreate dates ⟨cat, []⟩ N).scenarios.get? i
          = some ⟨"scenario-" ++ toString (i + 1),
              ⟨Region.ASIA, ⟨(dates i).1, (dates i).2⟩, []⟩⟩ := by
  rw [iterCreate_scenarios]
  constructor
  · simp
  · intro i hi
    rw [List.get?_eq_getElem?, List.getElem?_map, List.getElem?_range hi]
    rfl

/-- Witness for C4 at N = 2: the two scenarios and their fields. -/
theorem C4_witness :
    (iterCreate (fun _ => (date0, date0)) ⟨[], []⟩ 2).scenarios.length = 2
    ∧ (iterCreate (fun _ => (date0, date0)) ⟨[], []⟩ 2).scenarios.get? 0
      = some ⟨"scenario-1", ⟨Region.ASIA, ⟨date0, date0⟩, []⟩⟩
    ∧ (iterCreate (fun _ => (date0, date0)) ⟨[], []⟩ 2).scenarios.get? 1
      = some ⟨"scenario-2", ⟨Region.ASIA, ⟨date0, date0⟩, []⟩⟩ := by
  have h := C4_createScenario_names (fun _ => (date0, date0)) [] 2
    (by decide)
  exact ⟨h.1, h.2 0 (by decide), h.2 1 (by decide)⟩

lemma jsRound_zero_or_one (q : Rat) (h0 : 0 ≤ q) (h1 : q < 1) :
    jsRound q = 0 ∨ jsRound q = 1 := by
  have hlo : (0 : Int) ≤ jsRound q := by
    apply Int.le_floor.mpr
    push_cast
    linarith
  have hhi : jsRound q < 2 := by
    apply Int.floor_lt.mpr
    push_cast
    linarith
  omega

lemma evalAux_length (rand : Nat → Rat) (l : List Appliance) (i : Nat) :
    (evalAux rand i l).length = l.length := by
  induction l generalizing i with
  | nil => rfl
  | cons a rest ih => simp [evalAux, ih]

lemma evalAux_appliance_get? (rand : Nat → Rat) (l : List Appliance)
    (i k : Nat) :
    ((evalAux rand i l).get? k).map CO2Contribution.appliance = l.get? k := by
  induction l generalizing i k with
  | nil => rfl
  | cons a rest ih =>
      cases k with
      | zero => rfl
      | succ k => simp only [evalAux, List.get?_cons_succ]; exact ih (i + 1) k

lemma evalAux_value_mem (rand : Nat → Rat)
    (hr : ∀ i, 0 ≤ rand i ∧ rand i < 1) (l : List Appliance) (i : Nat)
    (c : CO2Contribution) (hc : c ∈ evalAux rand i l) :
    c.value = 0 ∨ c.value = 100 := by
  induction l generalizing i with
  | nil => simp [evalAux] at hc
  | cons a rest ih =>
      rw [evalAux, List.mem_cons] at hc
      rcases hc with hc | hc
      · rcases jsRound_zero_or_one (rand i) (hr i).1 (hr i).2 with h | h <;>
          subst hc <;> simp [h]
      · exact ih (i + 1) hc

/-- C5: evaluating a scenario yields one CO2Contribution per household
appliance, in order (the k-th contribution references the k-th appliance),
and — for any outcome of `Math.random()`, which ranges over [0,1) — every
value is exactly 0 or exactly 100. -/
theorem C5_evaluate_shape (s : Scenario) (rand : Nat → Rat)
    (hr : ∀ i, 0 ≤ rand i ∧ rand i < 1) :
    (Scenario.evaluate rand s).length = s.household.appliances.length
    ∧ (∀ k, ((Scenario.evaluate rand s).get? k).map CO2Contribution.appliance
        = s.household.appliances.get? k)
    ∧ ∀ c ∈ Scenario.evaluate rand s, c.value = 0 ∨ c.value = 100 :=
  ⟨evalAux_length rand s.household.appliances 0,
    fun k => evalAux_appliance_get? rand s.household.appliances 0 k,
    fun c hc => evalAux_value_mem rand hr s.household.appliances 0 c hc⟩

/-- Witness for C5: a two-appliance household evaluated with the random
stream constantly 1/2 (which `Math.round` sends to 1, value 100). -/
theorem C5_witness :
    (Scenario.evaluate (fun _ => 1 / 2)
        ⟨"s", ⟨Region.EU, ⟨date0, date0⟩, [fridge, fridge]⟩⟩).length = 2
    ∧ ∀ c ∈ Scenario.evaluate (fun _ => 1 / 2)
        ⟨"s", ⟨Region.EU, ⟨date0, date0⟩, [fridge, fridge]⟩⟩,
        c.value = 0 ∨ c.value = 100 := by
  have h := C5_evaluate_shape
    ⟨"s", ⟨Region.EU, ⟨date0, date0⟩, [fridge, fridge]⟩⟩ (fun _ => 1 / 2)
    (fun i => by norm_num)
  exact ⟨h.1, h.2.2⟩

/-- C6: when the target scenario is found and the name, time-window,
region and appliance-selection steps all complete, `edit_scenario` appends
exactly one new Scenario built from the collected answers; the catalog and
every pre-existing scenario (the original included, at its position) are
untouched, and the list grows by exactly one. -/
theorem C6_edit_appends_duplicate (parse : String → Option Date)
    (st : AppState) (inp : EditInputs) (orig : Scenario) (tw : TimeWindow)
    (hne : falsy inp.targetName = false)
    (hfind : st.scenarios.find? (fun s => s.name == inp.targetName.getD "")
      = some orig)
    (htw : getTimeWindow parse inp.startDate inp.startTime inp.endDate
      inp.endTime = some tw)
    (hcat : st.possibleAppliances ≠ []) :
    App.editScenario parse st inp
      = { st with scenarios := st.scenarios ++
          [⟨getScenarioName orig inp.newName,
            ⟨getRegion inp.regionInput, tw,
              getAppliances st.possibleAppliances inp.applianceInputs⟩⟩] }
    ∧ (App.editScenario parse st inp).scenarios.length
      = st.scenarios.length + 1
    ∧ (App.editScenario parse st inp).scenarios.take st.scenarios.length
      = st.scenarios
    ∧ (App.editScenario parse st inp).possibleAppliances
      = st.possibleAppliances := by
  have hs := scenarios_ne_nil_of_find st _ orig hfind
  have hc : st.possibleAppliances.isEmpty = false := by
    cases hp : st.possibleAppliances with
    | nil => exact absurd hp hcat
    | cons a l => rfl
  have hmain : App.editScenario parse st inp
      = { st with scenarios := st.scenarios ++
          [⟨getScenarioName orig inp.newName,
            ⟨getRegion inp.regionInput, tw,
              getAppliances st.possibleAppliances inp.applianceInputs⟩⟩] } := by
    simp [App.editScenario, hs, hne, hfind, htw, hc]
  refine ⟨hmain, ?_, ?_, ?_⟩ <;> rw [hmain] <;> simp [List.take_left]

/-- Witness for C6: a one-scenario controller with a one-appliance
catalog; the user renames to "copy", sets a parseable window, picks region
2 (EU) and selects appliance 1 before "done". -/
theorem C6_witness :
    App.editScenario (fun _ => some date0) ⟨[fridge], [⟨"scenario-1", emptyHousehold⟩]⟩
        ⟨some "scenario-1", some "copy", some "2024-01-01", some "00:00",
          some "2024-01-02", some "23:59", some "2", [some "1", some "done"]⟩
      = ⟨[fridge], [⟨"scenario-1", emptyHousehold⟩,
          ⟨"copy", ⟨Region.EU, ⟨date0, date0⟩, [fridge]⟩⟩]⟩ := by
  have h := C6_edit_appends_duplicate (fun _ => some date0)
    ⟨[fridge], [⟨"scenario-1", emptyHousehold⟩]⟩
    ⟨some "scenario-1", some "copy", some "2024-01-01", some "00:00",
      some "2024-01-02", some "23:59", some "2", [some "1", some "done"]⟩
    ⟨"scenario-1", emptyHousehold⟩ ⟨date0, date0⟩ rfl rfl rfl
    (by simp)
  rw [h.1]
  rfl

lemma validateAppliance_toJson (r : ApplianceRecord) (h : ValidRecord r) :
    validateAppliance r.toJson = Except.ok r := by
  obtain ⟨nm, pc, ee, um, par⟩ := r
  obtain ⟨htrim, hne, hp, he⟩ := h
  simp only at htrim hne hp he
  have hlen : 1 ≤ (jsTrim nm).length := by
    rw [htrim]
    exact one_le_length_of_ne_empty nm hne
  have hlen0 : ¬nm.length = 0 := by
    rw [htrim] at hlen
    omega
  cases par with
  | none =>
      cases um <;>
        simp [ApplianceRecord.toJson, validateAppliance, jsonField,
          List.find?, UsageMode.toStr, parseUsageMode, hlen, hlen0, hp, he, htrim]
  | some ps =>
      cases um <;>
        simp [ApplianceRecord.toJson, validateAppliance, jsonField,
          List.find?, UsageMode.toStr, parseUsageMode, hlen, hlen0, hp, he, htrim]

lemma validateList_map_toJson (records : List ApplianceRecord)
    (h : ∀ r ∈ records, ValidRecord r) :
    validateList (records.map ApplianceRecord.toJson) = Except.ok records := by
  induction records with
  | nil => rfl
  | cons r rs ih =>
      rw [List.map_cons, validateList,
        validateAppliance_toJson r (h r (List.mem_cons_self r rs)),
        ih (fun x hx => h x (List.mem_cons_of_mem r hx))]

/-- C2: on a catalog file whose text parses to a JSON array of valid
records (trimmed non-empty name, non-negative powerConsumption and
embodiedEmissions, enum usageMode, optional parameters object),
`loadAppliancesFromFile` succeeds with exactly one Appliance per entry,
in order, each field copied from its record, and an empty parameters
mapping whenever the record's `parameters` is absent. -/
theorem C2_load_valid_catalog (records : List ApplianceRecord)
    (content : String) (parseJson : String → Except JSError Json)
    (hp : parseJson content
      = Except.ok (Json.arr (records.map ApplianceRecord.toJson)))
    (hv : ∀ r ∈ records, ValidRecord r) :
    ∃ apps, ApplianceLoader.loadAppliancesFromFile parseJson
        { data := some content, error := none } = Except.ok apps
      ∧ apps.length = records.length
      ∧ ∀ i r, records.get? i = some r →
          apps.get? i = some ⟨r.name, r.powerConsumption,
            r.embodiedEmissions, r.usageMode, r.parameters.getD []⟩ := by
  refine ⟨records.map ApplianceRecord.toAppliance, ?_, by simp, ?_⟩
  · simp [ApplianceLoader.loadAppliancesFromFile, hp, safeParseAppliances,
      validateList_map_toJson records hv]
  · intro i r hr
    rw [List.get?_eq_getElem?] at hr ⊢
    rw [List.getElem?_map, hr]
    rfl

/-- Witness for C2: a two-record catalog, one record without `parameters`
(empty mapping in the result) and one with. -/
theorem C2_witness :
    ∃ apps, ApplianceLoader.loadAppliancesFromFile
        (fun _ => Except.ok (Json.arr
          ([fridgeRecord, heaterRecord].map ApplianceRecord.toJson)))
        { data := some "catalog", error := none } = Except.ok apps
      ∧ apps.length = 2
      ∧ apps.get? 0 = some ⟨"Fridge", 150, 50, UsageMode.ALWAYS_ON, []⟩
      ∧ apps.get? 1 = some ⟨"Heater", 2000, 120, UsageMode.ON_DEMAND,
          [("room", Json.str "kitchen")]⟩ := by
  obtain ⟨apps, hload, hlen, hget⟩ := C2_load_valid_catalog
    [fridgeRecord, heaterRecord] "catalog"
    (fun _ => Except.ok (Json.arr
      ([fridgeRecord, heaterRecord].map ApplianceRecord.toJson)))
    rfl
    (by
      intro r hr
      rcases List.mem_cons.mp hr with h | hr
      · subst h
        exact ⟨rfl, by decide, by norm_num [fridgeRecord],
          by norm_num [fridgeRecord]⟩
      rcases List.mem_cons.mp hr with h | hr
      · subst h
        exact ⟨rfl, by decide, by norm_num [heaterRecord],
          by norm_num [heaterRecord]⟩
      simp at hr)
  exact ⟨apps, hload, hlen, hget 0 fridgeRecord rfl, hget 1 heaterRecord rfl⟩

lemma parseUsageMode_some (m : String) (u : UsageMode)
    (h : parseUsageMode m = some u) :
    m = "ALWAYS_ON" ∨ m = "ON_DEMAND" := by
  unfold parseUsageMode at h
  split_ifs at h with h1 h2
  · exact Or.inl h1
  · exact Or.inr h2

lemma validateAppliance_ok_facts (fields : List (String × Json))
    (r : ApplianceRecord)
    (h : validateAppliance (Json.obj fields) = Except.ok r) :
    (∀ p : Rat, jsonField fields "powerConsumption" = some (Json.num p) →
      0 ≤ p) ∧
    (∀ q : Rat, jsonField fields "embodiedEmissions" = some (Json.num q) →
      0 ≤ q) ∧
    (∀ m : String, jsonField fields "usageMode" = some (Json.str m) →
      m = "ALWAYS_ON" ∨ m = "ON_DEMAND") := by
  simp only [validateAppliance] at h
  repeat' split at h
  all_goals try exact Except.noConfusion h
  all_goals
    injection h with h
    subst h
    refine ⟨fun p hp => ?_, fun q hq => ?_, fun m' hm' => ?_⟩ <;>
      simp_all <;>
      try exact parseUsageMode_some _ _ (by assumption)

lemma validateList_ok_all (l : List Json) (rs : List ApplianceRecord)
    (h : validateList l = Except.ok rs) :
    ∀ e ∈ l, ∃ r, validateAppliance e = Except.ok r := by
  induction l generalizing rs with
  | nil => intro e he; simp at he
  | cons e rest ih =>
      intro x hx
      rw [validateList] at h
      rcases hv : validateAppliance e with m | r <;> rw [hv] at h
      · exact absurd h (by simp)
      · rcases hr : validateList rest with m | rs2 <;> rw [hr] at h
        · exact absurd h (by simp)
        · rcases List.mem_cons.mp hx with hx | hx
          · exact ⟨r, hx ▸ hv⟩
          · exact ih rs2 hr x hx

/-- C3: a catalog file that parses as JSON but contains an entry with a
negative `powerConsumption`, a negative `embodiedEmissions`, or a
`usageMode` outside the enum makes `loadAppliancesFromFile` fail with the
SchemaValidationError throw — no Appliance list is produced. -/
theorem C3_invalid_entry_fails (entries : List Json) (content : String)
    (parseJson : String → Except JSError Json)
    (hp : parseJson content = Except.ok (Json.arr entries))
    (hbad : ∃ e ∈ entries, BadEntry e) :
    ∃ msg, ApplianceLoader.loadAppliancesFromFile parseJson
        { data := some content, error := none }
      = Except.error (LoadError.schemaValidation msg) := by
  simp only [ApplianceLoader.loadAppliancesFromFile, Option.getD_some, hp,
    safeParseAppliances]
  rcases hv : validateList entries with m | rs
  · exact ⟨_, rfl⟩
  · obtain ⟨e, he, fields, rfl, hcase⟩ := hbad
    obtain ⟨r, hr⟩ := validateList_ok_all entries rs hv _ he
    have facts := validateAppliance_ok_facts fields r hr
    exfalso
    rcases hcase with ⟨p, hp2, hneg⟩ | ⟨q, hq2, hneg⟩ | ⟨m, hm2, h1, h2⟩
    · exact absurd (facts.1 p hp2) (not_le.mpr hneg)
    · exact absurd (facts.2.1 q hq2) (not_le.mpr hneg)
    · rcases facts.2.2 m hm2 with h | h
      · exact h1 h
      · exact h2 h

/-- Witness for C3: a singleton catalog whose entry has
`powerConsumption = -5`. -/
theorem C3_witness :
    ∃ msg, ApplianceLoader.loadAppliancesFromFile
        (fun _ => Except.ok (Json.arr [badPowerEntry]))
        { data := some "catalog", error := none }
      = Except.error (LoadError.schemaValidation msg) :=
  C3_invalid_entry_fails [badPowerEntry] "catalog"
    (fun _ => Except.ok (Json.arr [badPowerEntry])) rfl
    ⟨badPowerEntry, List.mem_singleton.mpr rfl,
      ⟨[("name", Json.str "Broken"), ("powerConsumption", Json.num (-5)),
        ("embodiedEmissions", Json.num 10),
        ("usageMode", Json.str "ALWAYS_ON")], rfl,
        Or.inl ⟨-5, rfl, by norm_num⟩⟩⟩
